import Mathlib

/-!
Verification of the YAIB model-wrapper training/evaluation engines and the
step-based preprocessing pipeline, as a shallow embedding of
`icu_benchmarks/models/wrappers.py` and `icu_benchmarks/recipes/step.py`.

Floating-point losses, labels and weights are embedded as exact rationals
(ℚ); external collaborators that the spec excludes from the core (the encoder
network, metric primitives, sklearn transform objects, file I/O) are either
tagged symbolically or taken as parameters.
-/

/-! ## DLWrapper.train: early-stopping loop state

The mutable local state of `DLWrapper.train` (wrappers.py lines 205-230):
`best_loss` (initially `float("inf")`, embedded as `none`), the epoch whose
validation metrics were snapshotted into `best_metrics`, the last checkpoint
written by `save_weights` (epoch paired with its validation loss), the
`epoch_no_improvement` counter, and whether the `break` was taken. -/
structure TrainState where
  bestLoss : Option ℚ
  bestMetrics : Option ℕ
  checkpoint : Option (ℕ × ℚ)
  noImp : ℕ
  stop : Bool
deriving DecidableEq, Repr

/-- Initial state of the loop: `best_loss = float("inf")`,
`epoch_no_improvement = 0`, nothing snapshotted or saved. -/
def initTrainState : TrainState :=
  { bestLoss := none, bestMetrics := none, checkpoint := none, noImp := 0, stop := false }

/-- The improvement test `val_loss <= best_loss - min_delta` of wrappers.py
line 218; `best_loss = float("inf")` (here `none`) makes it true for every
finite validation loss. -/
def improves (vl : ℚ) (best : Option ℚ) (delta : ℚ) : Bool :=
  match best with
  | none => true
  | some b => decide (vl ≤ b - delta)

/-- One iteration of the early-stopping bookkeeping of `DLWrapper.train`
(wrappers.py lines 218-230): on improvement, snapshot the epoch's validation
metrics, reset the counter, persist the checkpoint when `save_weights`, and
update `best_loss`; otherwise increment the counter.  Afterwards, if
`epoch_no_improvement >= patience`, the loop breaks (`stop := true`). -/
def epochStep (delta : ℚ) (patience : ℕ) (saveWeights : Bool)
    (epoch : ℕ) (vl : ℚ) (st : TrainState) : TrainState :=
  let st1 :=
    if improves vl st.bestLoss delta then
      { st with
        bestLoss := some vl
        bestMetrics := some epoch
        checkpoint := if saveWeights then some (epoch, vl) else st.checkpoint
        noImp := 0 }
    else
      { st with noImp := st.noImp + 1 }
  if patience ≤ st1.noImp then { st1 with stop := true } else st1

/-- The epoch loop of `DLWrapper.train` (wrappers.py lines 210-230), driven by
the sequence of validation losses returned by `evaluate`, one per epoch.
Returns the final state together with the list of validation losses of the
epochs actually evaluated (the loop body stops running once the `break` on
line 230 is taken or the `range(epochs)` budget is exhausted). -/
def trainLoop (delta : ℚ) (patience : ℕ) (saveWeights : Bool) :
    ℕ → TrainState → List ℚ → TrainState × List ℚ
  | _, st, [] => (st, [])
  | epoch, st, vl :: rest =>
    let st1 := epochStep delta patience saveWeights epoch vl st
    if st1.stop then (st1, [vl])
    else
      let r := trainLoop delta patience saveWeights (epoch + 1) st1 rest
      (r.1, vl :: r.2)

/-- A full `DLWrapper.train` run over a given sequence of per-epoch
validation losses (the list's length plays the role of `epochs`). -/
def trainRun (delta : ℚ) (patience : ℕ) (saveWeights : Bool)
    (losses : List ℚ) : TrainState × List ℚ :=
  trainLoop delta patience saveWeights 0 initTrainState losses

/-- Order on `Option ℚ` where `none` stands for `float("inf")`. -/
def optLE : Option ℚ → Option ℚ → Prop
  | none, none => True
  | some _, none => True
  | none, some _ => False
  | some x, some y => x ≤ y

/-! ## DLWrapper weight resolution

`DLWrapper.train` (wrappers.py lines 200-203) converts a literal list to a
device tensor and resolves the `"balanced"` sentinel through
`train_dataset.get_balance()`; `DLWrapper.test` (lines 268-269) only has the
literal-list branch. -/

/-- The `weight` argument of `DLWrapper.train` / `DLWrapper.test`: a literal
per-class list, the `"balanced"` sentinel string, or anything else. -/
inductive Weight where
  | wlist (ws : List ℚ)
  | balanced
  | otherW
deriving DecidableEq, Repr

/-- Result of weight resolution: a concrete device tensor, or the original
argument passed through unchanged. -/
inductive ResolvedWeight where
  | tensor (ws : List ℚ)
  | unresolved (w : Weight)
deriving DecidableEq, Repr

/-- Weight resolution in `DLWrapper.train` (wrappers.py lines 200-203):
`isinstance(weight, list)` → `torch.FloatTensor(weight)`; `weight ==
"balanced"` → `torch.FloatTensor(train_dataset.get_balance())`; anything else
is left as is.  `balance` is the vector returned by
`train_dataset.get_balance()`. -/
def resolveWeightTrain (w : Weight) (balance : List ℚ) : ResolvedWeight :=
  match w with
  | .wlist ws => .tensor ws
  | .balanced => .tensor balance
  | .otherW => .unresolved .otherW

/-- Weight resolution in `DLWrapper.test` (wrappers.py lines 268-269): only
`isinstance(weight, list)` is converted; every other value, including the
`"balanced"` sentinel, is passed through to `evaluate` unchanged. -/
def resolveWeightTest (w : Weight) : ResolvedWeight :=
  match w with
  | .wlist ws => .tensor ws
  | other => .unresolved other

/-! ## DLWrapper.set_metrics (wrappers.py lines 76-109) -/

/-- Output transforms installed by `DLWrapper.set_metrics`: softmax then
selection of the positive-class column (`y_pred[:, -1]`), the identity
`lambda x: x`, or softmax over all classes. -/
inductive DLTransform where
  | softmaxBinary
  | ident
  | softmaxMulti
deriving DecidableEq, Repr

/-- The metric objects `DLWrapper.set_metrics` can install.  The metric
primitives themselves are external collaborators; each constructor tags one
of them, distinguishing the `MAE` that inverts through the label scaler from
the plain `MeanAbsoluteError`. -/
inductive DLMetric where
  | PR
  | AUC
  | PRCurve
  | ROCCurve
  | CalibrationCurve
  | MAEInverted
  | MeanAbsoluteError
  | Accuracy
  | BalancedAccuracy
deriving DecidableEq, Repr

/-- `DLWrapper.set_metrics` (wrappers.py lines 76-109): dispatch on
`self.encoder.logit.out_features` (2 → binary ranking/calibration metrics
with the softmax-binary transform; 1 → regression error metric, inverted
through the label scaler when `self.scaler is not None`; otherwise →
accuracy-family metrics with the softmax-multi transform). -/
def dlSetMetrics (outFeatures : ℕ) (hasScaler : Bool) : DLTransform × List DLMetric :=
  if outFeatures = 2 then
    (.softmaxBinary, [.PR, .AUC, .PRCurve, .ROCCurve, .CalibrationCurve])
  else if outFeatures = 1 then
    (.ident, if hasScaler then [.MAEInverted] else [.MeanAbsoluteError])
  else
    (.softmaxMulti, [.Accuracy, .BalancedAccuracy])

/-! ## DLWrapper.step_fn (wrappers.py lines 111-130)

A loader element is a tuple of tensors; labels and masks are 1-D here, and a
mask entry is valid when nonzero (a bool tensor's numeric values are 0/1). -/

/-- The error message of the `raise Exception` on wrappers.py line 130. -/
def loaderErrMsg : String :=
  "Loader should return either (data, label) or (data, label, mask)"

/-- Tuple-arity dispatch of `DLWrapper.step_fn` (wrappers.py lines 113-130):
a 2-tuple gets the all-ones mask `torch.ones_like(labels).bool()`, a 3-tuple
keeps the mask it carries, and any other arity raises immediately. -/
def stepFn (element : List (List ℚ)) : Except String (List ℚ × List ℚ × List ℚ) :=
  match element with
  | [data, labels] => .ok (data, labels, labels.map fun _ => 1)
  | [data, labels, mask] => .ok (data, labels, mask)
  | _ => .error loaderErrMsg

/-- `torch.masked_select` on a 1-D tensor: keep the entries whose mask value
is nonzero (wrappers.py line 137). -/
def maskedSelect (xs : List ℚ) (mask : List ℚ) : List ℚ :=
  ((xs.zip mask).filter fun p => p.2 ≠ 0).map Prod.fst

/-! ## MLWrapper.set_metrics (wrappers.py lines 315-343) -/

/-- Output / label transforms installed by `MLWrapper.set_metrics`: the
identity `lambda x: x`, positive-class column selection `x[:, 1]`,
`np.argmax(x, axis=-1)`, or `self.scaler.inverse_transform(x.reshape(-1, 1))`. -/
inductive MLTransform where
  | identT
  | posColumn
  | argmaxT
  | invScale
deriving DecidableEq, Repr

/-- The metric functions `MLWrapper.set_metrics` can install (external
collaborators, tagged). -/
inductive MLMetric where
  | mPR
  | mAUC
  | mROC
  | mPRC
  | mAccuracy
  | mBalancedAccuracy
  | mMAE
deriving DecidableEq, Repr

/-- A float is integer-valued exactly when truncating it with
`astype(int)` gives it back, i.e. (on exact rationals) its denominator is 1. -/
def ratIsInt (x : ℚ) : Bool := x.den == 1

/-- The ranking metric set of the binary branch (wrappers.py lines 324-329). -/
def rankingMetrics : List MLMetric := [.mPR, .mAUC, .mROC, .mPRC]

/-- The accuracy-family metric set (wrappers.py line 334). -/
def accuracyMetrics : List MLMetric := [.mAccuracy, .mBalancedAccuracy]

/-- `MLWrapper.set_metrics` (wrappers.py lines 315-343).  Returns (output
transform, label transform, metric set).  The guards are translated from the
source: `len(np.unique(labels)) == 2` is the number of distinct label values;
`np.all(labels[:10].astype(int) == labels[:10])` checks integrality of the
first 10 entries only; `isinstance(self.model, lightgbm.basic.Booster)` is
the `isBooster` flag and `self.scaler is not None` the `hasScaler` flag. -/
def mlSetMetrics (labels : List ℚ) (isBooster hasScaler : Bool) :
    MLTransform × MLTransform × List MLMetric :=
  if labels.dedup.length = 2 then
    (if isBooster then .identT else .posColumn, .identT, rankingMetrics)
  else if (labels.take 10).all ratIsInt then
    (.argmaxT, .identT, accuracyMetrics)
  else if hasScaler then
    (.invScale, .invScale, [.mMAE])
  else
    (.identT, .identT, [.mMAE])

/-! ## Step pipeline (icu_benchmarks/recipes/step.py)

Tabular data is embedded as an ordered association list of named columns of
optional rationals (`none` is a missing value / NaN), plus the column-role
metadata that `StepHistorical` writes through `add_role`.  Group-aware steps
receive grouped data, embedded as the list of per-group frames; `data.obj`
(the underlying whole frame) is their row-wise concatenation. -/

structure DataFrame where
  cols : List (String × List (Option ℚ))
  roles : List (String × String)

/-- Read one column (the empty column for a name that is absent). -/
def DataFrame.getCol (df : DataFrame) (c : String) : List (Option ℚ) :=
  match df.cols.find? (fun p => p.1 = c) with
  | some p => p.2
  | none => []

/-- Write (or create) one column, keeping column order. -/
def DataFrame.setCol (df : DataFrame) (c : String) (v : List (Option ℚ)) : DataFrame :=
  if df.cols.any (fun p => p.1 = c) then
    { df with cols := df.cols.map fun p => if p.1 = c then (c, v) else p }
  else
    { df with cols := df.cols ++ [(c, v)] }

/-- `add_role` on the table's column-role metadata (step.py line 111). -/
def DataFrame.addRole (df : DataFrame) (c role : String) : DataFrame :=
  { df with roles := df.roles ++ [(c, role)] }

/-- Row-wise concatenation of two frames sharing a column schema. -/
def DataFrame.concatRows (a b : DataFrame) : DataFrame :=
  { cols := a.cols.map fun p => (p.1, p.2 ++ b.getCol p.1), roles := a.roles }

/-- Grouped data as handed to a group-aware step: one frame per group. -/
structure GroupedFrame where
  groups : List DataFrame

/-- `data.obj`: the whole underlying frame of grouped data. -/
def GroupedFrame.obj (g : GroupedFrame) : DataFrame :=
  match g.groups with
  | [] => { cols := [], roles := [] }
  | f :: rest => rest.foldl DataFrame.concatRows f

/-- A column selector predicate: a table handle in, an ordered list of column
names out (spec §6; `selector.py` is outside the excerpt, so selectors stay
abstract functions). -/
def Selector : Type := DataFrame → List String

/-- The `method` argument of pandas `fillna`. -/
inductive FillMethod where
  | ffill
  | bfill
deriving DecidableEq, Repr

/-- Forward fill: a missing entry is replaced by the last value seen, but at
most `limit` consecutive missing entries are filled per gap (`limit = none`
means no cap).  `last` is the running last value and `gap` the number of
missing entries already seen in the current gap. -/
def ffillAux (limit : Option ℕ) : Option ℚ → ℕ → List (Option ℚ) → List (Option ℚ)
  | _, _, [] => []
  | last, gap, none :: rest =>
    let fill := match last, limit with
      | none, _ => none
      | some v, none => some v
      | some v, some l => if gap < l then some v else none
    fill :: ffillAux limit last (gap + 1) rest
  | _, _, some x :: rest => some x :: ffillAux limit (some x) 0 rest

/-- pandas `Series.fillna(method='ffill', limit=limit)`. -/
def ffill (limit : Option ℕ) (xs : List (Option ℚ)) : List (Option ℚ) :=
  ffillAux limit none 0 xs

/-- pandas `Series.fillna(method='bfill', limit=limit)`: forward fill on the
reversed sequence. -/
def bfill (limit : Option ℕ) (xs : List (Option ℚ)) : List (Option ℚ) :=
  (ffill limit xs.reverse).reverse

/-- Value fill with the global `limit` cap pandas applies when no method is
given: at most `limit` missing entries along the column are filled. -/
def fillValueAux (v : ℚ) : Option ℕ → List (Option ℚ) → List (Option ℚ)
  | _, [] => []
  | none, none :: rest => some v :: fillValueAux v none rest
  | some 0, none :: rest => none :: fillValueAux v (some 0) rest
  | some (l + 1), none :: rest => some v :: fillValueAux v (some l) rest
  | budget, some x :: rest => some x :: fillValueAux v budget rest

/-- Message of the `ValueError` pandas raises from `validate_fillna_kwargs`
when neither `value` nor `method` is given (the quotes pandas puts around the
two argument names are omitted here). -/
def fillnaNeedValueOrMethod : String :=
  "Must specify a fill value or method."

/-- Message of the `ValueError` pandas raises from `validate_fillna_kwargs`
when both `value` and `method` are given (quotes around the argument names
omitted). -/
def fillnaBothValueAndMethod : String :=
  "Cannot specify both value and method."

/-- The argument validation every pandas `fillna` call performs before
touching any data: exactly one of `value` and `method` must be given,
otherwise a `ValueError` is raised — even when the call operates on an empty
column selection. -/
def fillnaValidate (value : Option ℚ) (method : Option FillMethod) :
    Except String Unit :=
  match value, method with
  | none, none => .error fillnaNeedValueOrMethod
  | some _, some _ => .error fillnaBothValueAndMethod
  | _, _ => .ok ()

/-- The data part of pandas `fillna(value, method, axis=0, limit)` on one
column, for the configurations `fillnaValidate` accepts (the both-`none`
match arm is unreachable past validation). -/
def fillnaCore (value : Option ℚ) (method : Option FillMethod) (limit : Option ℕ)
    (xs : List (Option ℚ)) : List (Option ℚ) :=
  match method with
  | some .ffill => ffill limit xs
  | some .bfill => bfill limit xs
  | none =>
    match value with
    | some v => fillValueAux v limit xs
    | none => xs

/-- pandas `fillna(value, method, axis=0, limit)` on one column, as called by
`StepImputeFill.transform` (step.py lines 58-59): argument validation first,
then the fill. -/
def fillna (value : Option ℚ) (method : Option FillMethod) (limit : Option ℕ)
    (xs : List (Option ℚ)) : Except String (List (Option ℚ)) :=
  match fillnaValidate value method with
  | .error e => .error e
  | .ok _ => .ok (fillnaCore value method limit xs)

/-! ### StepImputeFill (step.py lines 44-60) -/

structure StepImputeFill where
  sel : Selector
  value : Option ℚ
  method : Option FillMethod
  limit : Option ℕ
  columns : List String
  trained : Bool
  group : Bool

/-- `StepImputeFill.__init__`: stores the arguments; the base `Step.__init__`
sets `columns = []`, `_trained = False`, `_group = True`. -/
def mkStepImputeFill (sel : Selector) (value : Option ℚ) (method : Option FillMethod)
    (limit : Option ℕ) : StepImputeFill :=
  { sel := sel, value := value, method := method, limit := limit
    columns := [], trained := false, group := true }

/-- `StepImputeFill.fit` (step.py lines 52-54): resolve the columns through
the selector on `data.obj`, then set `_trained = True`. -/
def StepImputeFill.fit (s : StepImputeFill) (g : GroupedFrame) : StepImputeFill :=
  { s with columns := s.sel g.obj, trained := true }

/-- `StepImputeFill.transform` (step.py lines 56-60): the single
`data[self.columns].fillna(...)` call validates its arguments once before
touching any data — raising for `value` and `method` both absent or both
present, even when no column is resolved — then, per resolved column, the
fill is applied within each group and the result written back into the whole
frame `data.obj`. -/
def StepImputeFill.transform (s : StepImputeFill) (g : GroupedFrame) :
    Except String DataFrame :=
  match fillnaValidate s.value s.method with
  | .error e => .error e
  | .ok _ =>
    .ok (s.columns.foldl
      (fun df c =>
        df.setCol c ((g.groups.map fun grp =>
          fillnaCore s.value s.method s.limit (grp.getCol c)).flatten))
      g.obj)

/-! ### StepScale (step.py lines 63-83)

`sklearn.preprocessing.StandardScaler` is an external collaborator
(`with_mean` / `with_std` are forwarded to it); it is embedded as an abstract
fit/transform pair over a column, parameterised by its state type. -/

structure ColScaler (S : Type) where
  fitC : List (Option ℚ) → S
  transformC : S → List (Option ℚ) → List (Option ℚ)

structure StepScale (S : Type) where
  sel : Selector
  withMean : Bool
  withStd : Bool
  scalerLib : ColScaler S
  columns : List String
  scalers : List (String × S)
  trained : Bool
  group : Bool

/-- `StepScale.__init__` (step.py lines 64-69): stores the flags and sets
`_group = False`; no scaler exists yet. -/
def mkStepScale {S : Type} (sel : Selector) (withMean withStd : Bool)
    (lib : ColScaler S) : StepScale S :=
  { sel := sel, withMean := withMean, withStd := withStd, scalerLib := lib
    columns := [], scalers := [], trained := false, group := false }

/-- `StepScale.fit` (step.py lines 71-77): resolve the columns through the
selector on the (ungrouped) data, fit one independent scaler per column, then
set `_trained = True`. -/
def StepScale.fit {S : Type} (s : StepScale S) (d : DataFrame) : StepScale S :=
  let cs := s.sel d
  { s with
    columns := cs
    scalers := cs.map fun c => (c, s.scalerLib.fitC (d.getCol c))
    trained := true }

/-- `StepScale.transform` (step.py lines 79-83): iterate over the fitted
`self.scalers` and apply each column's own scaler. -/
def StepScale.transform {S : Type} (s : StepScale S) (d : DataFrame) : DataFrame :=
  s.scalers.foldl
    (fun df p => df.setCol p.1 (s.scalerLib.transformC p.2 (d.getCol p.1)))
    d

/-! ### StepHistorical (step.py lines 86-113) -/

/-- The aggregate of `StepHistorical` (`fun='max'` or `fun='min'`; the source
handles exactly these two). -/
inductive HistFun where
  | hmax
  | hmin
deriving DecidableEq, Repr

/-- Running cumulative aggregate with `skipna=True`: missing entries stay
missing in the output and do not disturb the running value. -/
def cumAggAux (f : ℚ → ℚ → ℚ) : Option ℚ → List (Option ℚ) → List (Option ℚ)
  | _, [] => []
  | acc, none :: rest => none :: cumAggAux f acc rest
  | acc, some x :: rest =>
    let m := match acc with
      | none => x
      | some a => f a x
    some m :: cumAggAux f (some m) rest

/-- pandas `cummax(skipna=True)` / `cummin(skipna=True)` on one column. -/
def cumAgg (fn : HistFun) (xs : List (Option ℚ)) : List (Option ℚ) :=
  match fn with
  | .hmax => cumAggAux max none xs
  | .hmin => cumAggAux min none xs

structure StepHistorical where
  sel : Selector
  fn : HistFun
  suffix : String
  role : String
  columns : List String
  trained : Bool
  group : Bool

/-- `StepHistorical.__init__` (step.py lines 87-94): when no suffix is given
the function name is used. -/
def mkStepHistorical (sel : Selector) (fn : HistFun) (suffix : Option String)
    (role : String) : StepHistorical :=
  let suf := match suffix with
    | none => match fn with
      | .hmax => "max"
      | .hmin => "min"
    | some s => s
  { sel := sel, fn := fn, suffix := suf, role := role
    columns := [], trained := false, group := true }

/-- `StepHistorical.fit` (step.py lines 96-98): resolve the columns through
the selector on `data.obj`, then set `_trained = True`. -/
def StepHistorical.fit (s : StepHistorical) (g : GroupedFrame) : StepHistorical :=
  { s with columns := s.sel g.obj, trained := true }

/-- `StepHistorical.transform` (step.py lines 100-113): per resolved column,
the within-group running aggregate is written to a new column named by
suffixing the source name, and each new column is tagged with the declared
role. -/
def StepHistorical.transform (s : StepHistorical) (g : GroupedFrame) : DataFrame :=
  let withCols := s.columns.foldl
    (fun df c =>
      df.setCol (c ++ "_" ++ s.suffix)
        ((g.groups.map fun grp => cumAgg s.fn (grp.getCol c)).flatten))
    g.obj
  s.columns.foldl (fun df c => df.addRole (c ++ "_" ++ s.suffix) s.role) withCols

/-! ### StepSklearn (step.py lines 116-150)

The wrapped object is an arbitrary external fit/transform instance
(`sklearn_transform`); it is embedded as an abstract record over its state
type: an unfitted initial state, a per-column fit and a joint fit, and the
matching transforms (a transform may emit several output columns). -/

structure ExtTransform (S : Type) where
  clsName : String
  initS : S
  fitCol : List (Option ℚ) → S
  fitJoint : List (List (Option ℚ)) → S
  transformCol : S → List (Option ℚ) → List (List (Option ℚ))
  transformJoint : S → List (List (Option ℚ)) → List (List (Option ℚ))

structure StepSklearn (S : Type) where
  sel : Selector
  ext : ExtTransform S
  columnwise : Bool
  isInPlace : Bool
  columns : List String
  transformers : List (String × S)
  jointState : S
  trained : Bool
  group : Bool

/-- `StepSklearn.__init__` (step.py lines 118-124): stores the external
transform (still unfitted) and the two mode flags; sets `_group = False`. -/
def mkStepSklearn {S : Type} (sel : Selector) (ext : ExtTransform S)
    (columnwise isInPlace : Bool) : StepSklearn S :=
  { sel := sel, ext := ext, columnwise := columnwise, isInPlace := isInPlace
    columns := [], transformers := [], jointState := ext.initS
    trained := false, group := false }

/-- `StepSklearn.fit` (step.py lines 126-135): resolve the columns through
the selector; in columnwise mode keep one distinct fitted copy of the
transform per column (the source refits the shared object and `deepcopy`s it,
so each kept copy is the fit of its own column), otherwise fit once across
all resolved columns jointly; then set `_trained = True`. -/
def StepSklearn.fit {S : Type} (s : StepSklearn S) (d : DataFrame) : StepSklearn S :=
  let cs := s.sel d
  if s.columnwise then
    { s with
      columns := cs
      transformers := cs.map fun c => (c, s.ext.fitCol (d.getCol c))
      trained := true }
  else
    { s with
      columns := cs
      jointState := s.ext.fitJoint (cs.map fun c => d.getCol c)
      trained := true }

/-- Names of the freshly emitted columns in the non-in-place modes
(step.py lines 143 and 147): transform-class name, source column (columnwise
only) and 1-based output index. -/
def sklearnNewNames (cls : String) (src : Option String) (n : ℕ) : List String :=
  (List.range n).map fun i =>
    match src with
    | some c => cls ++ "_" ++ c ++ "_" ++ toString (i + 1)
    | none => cls ++ "_" ++ toString (i + 1)

/-- Write a list of output columns under a list of names (zip order, as the
pandas multi-column assignment does). -/
def writeCols (df : DataFrame) (names : List String)
    (outs : List (List (Option ℚ))) : DataFrame :=
  (names.zip outs).foldl (fun acc p => acc.setCol p.1 p.2) df

/-- Representative message of the `ValueError` pandas raises when the shape
of an assigned transform output does not match the assignment key (a single
column receiving a multi-column or empty output, or a column-list assignment
of mismatched width). -/
def sklearnAssignErr : String := "Columns must be same length as key"

/-- `StepSklearn.transform` (step.py lines 137-150): columnwise mode applies
each column's own kept transformer — in place over the source column, which
the pandas assignment accepts only for a single-column output, raising the
shape `ValueError` otherwise — or into fresh class-and-index named columns;
joint mode applies the jointly fitted transform to all resolved columns at
once (overwriting them in place, shape-checked the same way, or emitting
fresh named columns). -/
def StepSklearn.transform {S : Type} (s : StepSklearn S) (d : DataFrame) :
    Except String DataFrame :=
  if s.columnwise then
    s.transformers.foldlM
      (fun df p =>
        let outs := s.ext.transformCol p.2 (d.getCol p.1)
        if s.isInPlace then
          match outs with
          | [o] => Except.ok (df.setCol p.1 o)
          | _ => Except.error sklearnAssignErr
        else
          Except.ok (writeCols df (sklearnNewNames s.ext.clsName (some p.1) outs.length) outs))
      d
  else
    let outs := s.ext.transformJoint s.jointState (s.columns.map fun c => d.getCol c)
    if s.isInPlace then
      if outs.length = s.columns.length then
        Except.ok (writeCols d s.columns outs)
      else
        Except.error sklearnAssignErr
    else
      Except.ok (writeCols d (sklearnNewNames s.ext.clsName none outs.length) outs)

/-! ### The inherited Step.fit_transform (step.py lines 28-30)

The base class defines `fit_transform` once over the virtual `fit` /
`transform` pair; each concrete step inherits it unchanged.  The combinator
takes the pair explicitly and returns the post-fit state together with the
transformed data. -/

def Step.fitTransform {St Din Dout : Type} (fit : St → Din → St)
    (transform : St → Din → Dout) (s : St) (d : Din) : St × Dout :=
  let s1 := fit s d
  (s1, transform s1 d)

/-! ## Helper lemmas on the early-stopping loop -/

theorem optLE_refl (a : Option ℚ) : optLE a a := by
  cases a <;> simp [optLE]

theorem optLE_trans (a b c : Option ℚ) (h1 : optLE a b) (h2 : optLE b c) : optLE a c := by
  cases a <;> cases b <;> cases c <;> simp_all [optLE]
  linarith

theorem epochStep_bestLoss (delta : ℚ) (pat : ℕ) (sw : Bool) (ep : ℕ) (vl : ℚ)
    (st : TrainState) :
    (epochStep delta pat sw ep vl st).bestLoss =
      if improves vl st.bestLoss delta then some vl else st.bestLoss := by
  unfold epochStep
  by_cases h : improves vl st.bestLoss delta <;> simp [h] <;> split <;> rfl

theorem epochStep_noImp (delta : ℚ) (pat : ℕ) (sw : Bool) (ep : ℕ) (vl : ℚ)
    (st : TrainState) :
    (epochStep delta pat sw ep vl st).noImp =
      if improves vl st.bestLoss delta then 0 else st.noImp + 1 := by
  unfold epochStep
  by_cases h : improves vl st.bestLoss delta <;> simp [h] <;> split <;> rfl

theorem epochStep_bestMetrics (delta : ℚ) (pat : ℕ) (sw : Bool) (ep : ℕ) (vl : ℚ)
    (st : TrainState) :
    (epochStep delta pat sw ep vl st).bestMetrics =
      if improves vl st.bestLoss delta then some ep else st.bestMetrics := by
  unfold epochStep
  by_cases h : improves vl st.bestLoss delta <;> simp [h] <;> split <;> rfl

theorem epochStep_checkpoint (delta : ℚ) (pat : ℕ) (sw : Bool) (ep : ℕ) (vl : ℚ)
    (st : TrainState) :
    (epochStep delta pat sw ep vl st).checkpoint =
      if improves vl st.bestLoss delta then
        (if sw then some (ep, vl) else st.checkpoint)
      else st.checkpoint := by
  unfold epochStep
  by_cases h : improves vl st.bestLoss delta <;> simp [h] <;> split <;> rfl

theorem epochStep_bestLoss_le (delta : ℚ) (pat : ℕ) (sw : Bool) (ep : ℕ) (vl : ℚ)
    (st : TrainState) (hd : 0 ≤ delta) :
    optLE (epochStep delta pat sw ep vl st).bestLoss st.bestLoss := by
  rw [epochStep_bestLoss]
  by_cases h : improves vl st.bestLoss delta
  · simp only [h, if_true]
    cases hb : st.bestLoss with
    | none => simp [optLE]
    | some b =>
      rw [hb] at h
      simp only [improves, decide_eq_true_eq] at h
      simp only [optLE]
      linarith
  · simp only [h, if_false]
    exact optLE_refl _

theorem epochStep_bestLoss_bound (delta : ℚ) (pat : ℕ) (sw : Bool) (ep : ℕ) (vl : ℚ)
    (st : TrainState) (hd : 0 ≤ delta) :
    ∃ b1, (epochStep delta pat sw ep vl st).bestLoss = some b1 ∧ b1 ≤ vl + delta := by
  rw [epochStep_bestLoss]
  cases h : improves vl st.bestLoss delta with
  | true => exact ⟨vl, by simp [h], by linarith⟩
  | false =>
    cases hb : st.bestLoss with
    | none => rw [hb] at h; simp [improves] at h
    | some b =>
      rw [hb] at h
      have hlt : b - delta < vl := by
        by_contra hc
        push_neg at hc
        simp [improves, hc] at h
      exact ⟨b, by simp [hb, h], by linarith⟩

theorem trainLoop_bestLoss_le (delta : ℚ) (pat : ℕ) (sw : Bool) (hd : 0 ≤ delta) :
    ∀ (losses : List ℚ) (ep : ℕ) (st : TrainState),
    optLE (trainLoop delta pat sw ep st losses).1.bestLoss st.bestLoss := by
  intro losses
  induction losses with
  | nil => intro ep st; exact optLE_refl _
  | cons vl rest ih =>
    intro ep st
    show optLE (trainLoop delta pat sw ep st (vl :: rest)).1.bestLoss st.bestLoss
    rw [trainLoop]
    split
    · exact epochStep_bestLoss_le delta pat sw ep vl st hd
    · exact optLE_trans _ _ _
        (ih (ep + 1) (epochStep delta pat sw ep vl st))
        (epochStep_bestLoss_le delta pat sw ep vl st hd)

theorem trainLoop_mem_bound (delta : ℚ) (pat : ℕ) (sw : Bool) (hd : 0 ≤ delta) :
    ∀ (losses : List ℚ) (ep : ℕ) (st : TrainState) (vl b : ℚ),
    vl ∈ (trainLoop delta pat sw ep st losses).2 →
    (trainLoop delta pat sw ep st losses).1.bestLoss = some b →
    b ≤ vl + delta := by
  intro losses
  induction losses with
  | nil => intro ep st vl b hmem; simp [trainLoop] at hmem
  | cons vl0 rest ih =>
    intro ep st vl b hmem hbest
    rw [trainLoop] at hmem hbest
    by_cases hstop : (epochStep delta pat sw ep vl0 st).stop
    · rw [if_pos hstop] at hmem hbest
      simp only [List.mem_singleton] at hmem
      subst hmem
      obtain ⟨b1, hb1, hle⟩ := epochStep_bestLoss_bound delta pat sw ep vl st hd
      rw [hb1] at hbest
      cases hbest
      exact hle
    · rw [if_neg hstop] at hmem hbest
      simp only [List.mem_cons] at hmem
      cases hmem with
      | inl heq =>
        subst heq
        obtain ⟨b1, hb1, hle⟩ := epochStep_bestLoss_bound delta pat sw ep vl st hd
        have hmono := trainLoop_bestLoss_le delta pat sw hd rest (ep + 1)
          (epochStep delta pat sw ep vl st)
        rw [hbest, hb1] at hmono
        simp only [optLE] at hmono
        linarith
      | inr hmem => exact ih (ep + 1) (epochStep delta pat sw ep vl0 st) vl b hmem hbest

/-- Invariant connecting the last saved checkpoint and `best_loss`: they are
updated together on every improvement when `save_weights` is on. -/
def ckptInv (st : TrainState) : Prop :=
  ∀ e b, st.checkpoint = some (e, b) → st.bestLoss = some b

theorem epochStep_ckptInv (delta : ℚ) (pat : ℕ) (ep : ℕ) (vl : ℚ)
    (st : TrainState) (h : ckptInv st) :
    ckptInv (epochStep delta pat true ep vl st) := by
  intro e b hc
  rw [epochStep_checkpoint] at hc
  rw [epochStep_bestLoss]
  by_cases himp : improves vl st.bestLoss delta
  · simp only [himp, if_true] at hc ⊢
    cases hc
    rfl
  · simp only [himp, if_false] at hc ⊢
    exact h e b hc

theorem trainLoop_ckptInv (delta : ℚ) (pat : ℕ) :
    ∀ (losses : List ℚ) (ep : ℕ) (st : TrainState), ckptInv st →
    ckptInv (trainLoop delta pat true ep st losses).1 := by
  intro losses
  induction losses with
  | nil => intro ep st h; exact h
  | cons vl rest ih =>
    intro ep st h
    rw [trainLoop]
    split
    · exact epochStep_ckptInv delta pat ep vl st h
    · exact ih (ep + 1) _ (epochStep_ckptInv delta pat ep vl st h)

/-! ## Claims about the DLWrapper training loop -/

/-- Counterexample for C1: with `min_delta = 1/100` and validation losses
`[1, 199/200]`, the second epoch's loss 199/200 beats the first but not by
`min_delta`, so no new checkpoint is written: the run completes with the
loaded checkpoint being epoch 0 at loss 1, which is strictly greater than the
evaluated loss 199/200 — the loaded model is not the checkpoint with the
lowest validation loss observed. -/
theorem C1_best_checkpoint_ce :
    (trainRun (1/100) 10 true [1, 199/200]).1.checkpoint = some (0, 1)
    ∧ (trainRun (1/100) 10 true [1, 199/200]).1.bestLoss = some 1
    ∧ (199 : ℚ)/200 ∈ (trainRun (1/100) 10 true [1, 199/200]).2
    ∧ ¬ ((1 : ℚ) ≤ 199/200) := by
  norm_num [trainRun, trainLoop, epochStep, improves, initTrainState]

/-- C1 (amended): for every `DLWrapper.train` run with `min_delta ≥ 0`, the
best-so-far checkpoint loss is monotonically non-increasing over epochs, the
model loaded back at the end of training is the checkpoint whose validation
loss equals the final `best_loss`, and that loss is within `min_delta` of
every evaluated epoch's validation loss: `best_loss ≤ val_loss(e) +
min_delta` for every epoch `e` of the run (the original bound
`best_loss ≤ val_loss(e)` fails, see the counterexample). -/
theorem C1_best_checkpoint (delta : ℚ) (pat : ℕ) (sw : Bool)
    (losses : List ℚ) (hd : 0 ≤ delta) :
    (∀ ep vl st, optLE (epochStep delta pat sw ep vl st).bestLoss st.bestLoss)
    ∧ (∀ e b, (trainRun delta pat true losses).1.checkpoint = some (e, b) →
        (trainRun delta pat true losses).1.bestLoss = some b)
    ∧ (∀ vl ∈ (trainRun delta pat sw losses).2, ∀ b,
        (trainRun delta pat sw losses).1.bestLoss = some b → b ≤ vl + delta) := by
  refine ⟨?_, ?_, ?_⟩
  · intro ep vl st
    exact epochStep_bestLoss_le delta pat sw ep vl st hd
  · have h0 : ckptInv initTrainState := by
      intro e' b' h'
      simp [initTrainState] at h'
    intro e b hc
    exact trainLoop_ckptInv delta pat losses 0 initTrainState h0 e b hc
  · intro vl hmem b hbest
    exact trainLoop_mem_bound delta pat sw hd losses 0 initTrainState vl b hmem hbest

/-- Witness for C1 (amended) at `min_delta = 1/100`, `patience = 2`, losses
`[1, 9/10]`. -/
theorem C1_best_checkpoint_witness :
    (0 : ℚ) ≤ 1/100
    ∧ (trainRun (1/100) 2 true [1, 9/10]).1.bestLoss = some (9/10)
    ∧ (9 : ℚ)/10 ≤ 9/10 + 1/100 :=
  ⟨by norm_num,
   by norm_num [trainRun, trainLoop, epochStep, improves, initTrainState],
   (C1_best_checkpoint (1/100) 2 true [1, 9/10] (by norm_num)).2.2 (9/10)
     (by norm_num [trainRun, trainLoop, epochStep, improves, initTrainState]) (9/10)
     (by norm_num [trainRun, trainLoop, epochStep, improves, initTrainState])⟩

/-- Counterexample for C2: the source resets the counter when the loss
improved by exactly `min_delta` (`val_loss <= best_loss - min_delta`), while
the claim's "improved by more than `min_delta` … otherwise the counter
increments" predicts an increment there: with `best_loss = 1`,
`min_delta = 1/10`, `val_loss = 9/10`, the improvement is not more than
`min_delta`, yet the counter is reset to 0, not incremented to 1. -/
theorem C2_early_stopping_ce :
    ¬ ((1 : ℚ) - 9/10 > 1/10)
    ∧ (epochStep (1/10) 5 true 3 (9/10)
        { bestLoss := some 1, bestMetrics := some 0, checkpoint := some (0, 1),
          noImp := 0, stop := false }).noImp = 0
    ∧ (0 : ℕ) ≠ 0 + 1 := by
  norm_num [epochStep, improves]

/-- C2 (amended): after each epoch, if the validation loss improved by at
least `min_delta` (the source's `val_loss <= best_loss - min_delta`), the
no-improvement counter resets to 0, the epoch's validation metrics are
snapshotted as best, and (when `save_weights`) the checkpoint is persisted;
otherwise the counter increments and `best_loss` is unchanged.  Once the
counter reaches `patience`, training stops before running any further epoch.
For validation losses `[1, 9/10, 91/100, 92/100]` with `patience = 2`,
`min_delta = 1/100`, training halts after the 4th epoch and the retained
best state is that of epoch index 1 (the 2nd epoch, loss 9/10). -/
theorem C2_early_stopping (delta : ℚ) (pat : ℕ) (sw : Bool) (ep : ℕ)
    (vl : ℚ) (st : TrainState) (b : ℚ) (hb : st.bestLoss = some b) :
    (delta ≤ b - vl →
      (epochStep delta pat sw ep vl st).noImp = 0
      ∧ (epochStep delta pat sw ep vl st).bestMetrics = some ep
      ∧ (epochStep delta pat sw ep vl st).bestLoss = some vl
      ∧ (sw = true → (epochStep delta pat sw ep vl st).checkpoint = some (ep, vl)))
    ∧ (b - vl < delta →
      (epochStep delta pat sw ep vl st).noImp = st.noImp + 1
      ∧ (epochStep delta pat sw ep vl st).bestLoss = st.bestLoss)
    ∧ (∀ rest, (epochStep delta pat sw ep vl st).stop = true →
        (trainLoop delta pat sw ep st (vl :: rest)).2 = [vl])
    ∧ trainRun (1/100) 2 true [1, 9/10, 91/100, 92/100]
        = ({ bestLoss := some (9/10), bestMetrics := some 1,
             checkpoint := some (1, 9/10), noImp := 2, stop := true },
           [1, 9/10, 91/100, 92/100]) := by
  refine ⟨?_, ?_, ?_,
    by norm_num [trainRun, trainLoop, epochStep, improves, initTrainState]⟩
  · intro h
    have himp : improves vl st.bestLoss delta = true := by
      rw [hb]
      simp only [improves, decide_eq_true_eq]
      linarith
    refine ⟨?_, ?_, ?_, ?_⟩
    · rw [epochStep_noImp, himp, if_pos rfl]
    · rw [epochStep_bestMetrics, himp, if_pos rfl]
    · rw [epochStep_bestLoss, himp, if_pos rfl]
    · intro hsw
      subst hsw
      rw [epochStep_checkpoint, himp]
      simp
  · intro h
    have himp : improves vl st.bestLoss delta = false := by
      rw [hb]
      simp only [improves, decide_eq_false_iff_not]
      intro hc
      linarith
    constructor
    · rw [epochStep_noImp, himp]
      simp
    · rw [epochStep_bestLoss, himp]
      simp
  · intro rest hstop
    rw [trainLoop]
    simp [hstop]

/-- Witness for C2 (amended): improvement by `1/2 ≥ min_delta = 1/100` from
best loss 1 resets the counter, snapshots epoch 5 and saves its checkpoint. -/
theorem C2_early_stopping_witness :
    (epochStep (1/100) 2 true 5 (1/2)
      { bestLoss := some 1, bestMetrics := some 0, checkpoint := some (0, 1),
        noImp := 0, stop := false }).noImp = 0
    ∧ (epochStep (1/100) 2 true 5 (1/2)
      { bestLoss := some 1, bestMetrics := some 0, checkpoint := some (0, 1),
        noImp := 0, stop := false }).bestMetrics = some 5
    ∧ (epochStep (1/100) 2 true 5 (1/2)
      { bestLoss := some 1, bestMetrics := some 0, checkpoint := some (0, 1),
        noImp := 0, stop := false }).bestLoss = some (1/2)
    ∧ (epochStep (1/100) 2 true 5 (1/2)
      { bestLoss := some 1, bestMetrics := some 0, checkpoint := some (0, 1),
        noImp := 0, stop := false }).checkpoint = some (5, 1/2) :=
  have h := (C2_early_stopping (1/100) 2 true 5 (1/2)
    { bestLoss := some 1, bestMetrics := some 0, checkpoint := some (0, 1),
      noImp := 0, stop := false } 1 rfl).1 (by norm_num)
  ⟨h.1, h.2.1, h.2.2.1, h.2.2.2 rfl⟩

/-- C10: with `patience = 0` and at least one epoch available, training runs
exactly one epoch and stops: the first epoch always improves (best loss
starts at infinity) and resets the counter to 0, yet the stop condition
`epoch_no_improvement >= patience` is checked after the improvement branch
and `0 >= 0` holds immediately. -/
theorem C10_patience_zero (delta : ℚ) (sw : Bool) (l : ℚ) (ls : List ℚ) :
    (trainRun delta 0 sw (l :: ls)).2 = [l]
    ∧ (trainRun delta 0 sw (l :: ls)).1.stop = true
    ∧ (trainRun delta 0 sw (l :: ls)).1.noImp = 0
    ∧ improves l initTrainState.bestLoss delta = true := by
  have hstep : epochStep delta 0 sw 0 l initTrainState =
      { bestLoss := some l, bestMetrics := some 0,
        checkpoint := if sw then some (0, l) else none,
        noImp := 0, stop := true } := by
    cases sw <;> rfl
  refine ⟨?_, ?_, ?_, rfl⟩
  · rw [trainRun, trainLoop]
    simp [hstep]
  · rw [trainRun, trainLoop]
    simp [hstep]
  · rw [trainRun, trainLoop]
    simp [hstep]

/-! ## Claims about weight resolution and metric dispatch -/

/-- Counterexample for C3: `DLWrapper.test` never resolves the `"balanced"`
sentinel — its only conversion branch is `isinstance(weight, list)` — so with
`weight = "balanced"` the string is passed through to `evaluate` unresolved
instead of becoming the dataset's balance tensor (contrast with
`DLWrapper.train`, where the same sentinel does resolve to `get_balance()`,
here `[1, 1]`). -/
theorem C3_weight_balanced_ce :
    resolveWeightTest Weight.balanced = ResolvedWeight.unresolved Weight.balanced
    ∧ ResolvedWeight.unresolved Weight.balanced ≠ ResolvedWeight.tensor [1, 1]
    ∧ resolveWeightTrain Weight.balanced [1, 1] = ResolvedWeight.tensor [1, 1] := by
  refine ⟨rfl, ?_, rfl⟩
  intro h
  cases h

/-- C3 (amended): in `DLWrapper.train`, a literal list weight converts
directly to a numeric device tensor and `"balanced"` resolves to the training
dataset's reported per-class balance vector, element-for-element; in
`DLWrapper.test` only a literal list is converted — the `"balanced"` sentinel
is passed through unresolved. -/
theorem C3_weight_resolution (ws balance : List ℚ) :
    resolveWeightTrain (Weight.wlist ws) balance = ResolvedWeight.tensor ws
    ∧ resolveWeightTrain Weight.balanced balance = ResolvedWeight.tensor balance
    ∧ resolveWeightTest (Weight.wlist ws) = ResolvedWeight.tensor ws
    ∧ resolveWeightTest Weight.balanced = ResolvedWeight.unresolved Weight.balanced :=
  ⟨rfl, rfl, rfl, rfl⟩

/-- C4: `DLWrapper.set_metrics` selects the metric set solely from the
model's output width: width 2 gives exactly the binary ranking/calibration
set with the softmax-then-positive-class transform; width 1 gives exactly the
regression error metric (scaler-inverted when a label scaler is set, plain
otherwise) with the identity transform; every other width (0 or ≥ 3) gives
exactly the accuracy-family set with the softmax transform. -/
theorem C4_dl_set_metrics (hasScaler : Bool) (w : ℕ) :
    dlSetMetrics 2 hasScaler
      = (.softmaxBinary, [.PR, .AUC, .PRCurve, .ROCCurve, .CalibrationCurve])
    ∧ dlSetMetrics 1 true = (.ident, [.MAEInverted])
    ∧ dlSetMetrics 1 false = (.ident, [.MeanAbsoluteError])
    ∧ dlSetMetrics 0 hasScaler = (.softmaxMulti, [.Accuracy, .BalancedAccuracy])
    ∧ dlSetMetrics (w + 3) hasScaler = (.softmaxMulti, [.Accuracy, .BalancedAccuracy]) := by
  refine ⟨rfl, rfl, rfl, rfl, ?_⟩
  unfold dlSetMetrics
  rw [if_neg (by omega), if_neg (by omega)]

/-- Counterexample for C5: for the labels `[0×9, 1, 1/2]` — not exactly 2
unique values and not all integer-valued (the 11th entry is 1/2) — the claim
demands the regression branch, but the source's integrality test only looks
at `labels[:10]`, which are all integers, so the accuracy-family branch is
selected instead. -/
theorem C5_ml_set_metrics_ce :
    ¬ ([0, 0, 0, 0, 0, 0, 0, 0, 0, 1, mkRat 1 2] : List ℚ).dedup.length = 2
    ∧ ¬ (([0, 0, 0, 0, 0, 0, 0, 0, 0, 1, mkRat 1 2] : List ℚ).all ratIsInt = true)
    ∧ mlSetMetrics [0, 0, 0, 0, 0, 0, 0, 0, 0, 1, mkRat 1 2] false false
        = (.argmaxT, .identT, accuracyMetrics)
    ∧ accuracyMetrics ≠ [MLMetric.mMAE] := by
  decide

/-- C5 (amended): `MLWrapper.set_metrics` selects from the label values: a
label vector with exactly 2 unique values gets the ranking metric set (output
transform identity for a raw-deserialized Booster, positive-class column
otherwise); a label vector not 2-unique whose FIRST 10 entries are
integer-valued gets the accuracy-family set with an argmax output transform;
a label vector not 2-unique whose first 10 entries contain a non-integer gets
the regression error metric, with predictions and labels both
inverse-transformed when a scaler is configured. -/
theorem C5_ml_set_metrics (labels : List ℚ) (isBooster hasScaler : Bool) :
    (labels.dedup.length = 2 →
      mlSetMetrics labels true hasScaler = (.identT, .identT, rankingMetrics)
      ∧ mlSetMetrics labels false hasScaler = (.posColumn, .identT, rankingMetrics))
    ∧ (labels.dedup.length ≠ 2 → (labels.take 10).all ratIsInt = true →
      mlSetMetrics labels isBooster hasScaler = (.argmaxT, .identT, accuracyMetrics))
    ∧ (labels.dedup.length ≠ 2 → (labels.take 10).all ratIsInt = false →
      mlSetMetrics labels isBooster true = (.invScale, .invScale, [.mMAE])
      ∧ mlSetMetrics labels isBooster false = (.identT, .identT, [.mMAE])) := by
  refine ⟨?_, ?_, ?_⟩
  · intro h2
    constructor <;> simp [mlSetMetrics, h2]
  · intro h2 hint
    simp [mlSetMetrics, h2, hint]
  · intro h2 hint
    constructor <;> simp [mlSetMetrics, h2, hint]

/-- Witness for C5 (amended) on the three branches: binary labels `[0, 1]`,
integer labels `[0, 1, 2]`, continuous labels `[0, 1/2, 1]`. -/
theorem C5_ml_set_metrics_witness :
    mlSetMetrics [0, 1] true false = (.identT, .identT, rankingMetrics)
    ∧ mlSetMetrics [0, 1, 2] false false = (.argmaxT, .identT, accuracyMetrics)
    ∧ mlSetMetrics [0, mkRat 1 2, 1] false false = (.identT, .identT, [.mMAE]) :=
  ⟨((C5_ml_set_metrics [0, 1] true false).1 (by decide)).1,
   (C5_ml_set_metrics [0, 1, 2] false false).2.1 (by decide) (by decide),
   ((C5_ml_set_metrics [0, mkRat 1 2, 1] false false).2.2 (by decide) (by decide)).2⟩

/-- Counterexample for C9: a label vector whose first 10 entries contain a
non-integer does NOT always take the regression branch: with exactly 2 unique
values `[1/2, 3/2]`, the 2-unique test fires first and the ranking metric set
is selected. -/
theorem C9_first10_ce :
    (([mkRat 1 2, mkRat 3 2] : List ℚ).take 10).all ratIsInt = false
    ∧ mlSetMetrics [mkRat 1 2, mkRat 3 2] false false
        = (.posColumn, .identT, rankingMetrics)
    ∧ rankingMetrics ≠ [MLMetric.mMAE] := by
  decide

/-- C9 (amended): the integrality test of `MLWrapper.set_metrics` inspects
only the first 10 label entries: every label vector with three or more unique
values whose first 10 entries are integer-valued selects the accuracy-family
set even if later entries are non-integer, and every label vector NOT having
exactly 2 unique values whose first 10 entries contain a non-integer selects
the regression branch regardless of the rest. -/
theorem C9_first10_dispatch (labels : List ℚ) (isBooster hasScaler : Bool) :
    (3 ≤ labels.dedup.length → (labels.take 10).all ratIsInt = true →
      mlSetMetrics labels isBooster hasScaler = (.argmaxT, .identT, accuracyMetrics))
    ∧ (labels.dedup.length ≠ 2 → (labels.take 10).all ratIsInt = false →
      (mlSetMetrics labels isBooster hasScaler).2.2 = [MLMetric.mMAE]) := by
  constructor
  · intro h3 hint
    have h2 : labels.dedup.length ≠ 2 := by omega
    simp [mlSetMetrics, h2, hint]
  · intro h2 hint
    cases hasScaler <;> simp [mlSetMetrics, h2, hint]

/-- Witness for C9 (amended): `[0×9, 1, 2, 1/2]` has 4 unique values, integer
first-10 entries and a non-integer 12th entry, and still selects the
accuracy-family set; `[0, 1/2, 1]` has a non-integer within the first 10 and
3 unique values, and selects the regression metric. -/
theorem C9_first10_dispatch_witness :
    mlSetMetrics [0, 0, 0, 0, 0, 0, 0, 0, 0, 1, 2, mkRat 1 2] false false
      = (.argmaxT, .identT, accuracyMetrics)
    ∧ (mlSetMetrics [0, mkRat 1 2, 1] true true).2.2 = [MLMetric.mMAE] :=
  ⟨(C9_first10_dispatch [0, 0, 0, 0, 0, 0, 0, 0, 0, 1, 2, mkRat 1 2] false false).1
     (by decide) (by decide),
   (C9_first10_dispatch [0, mkRat 1 2, 1] true true).2 (by decide) (by decide)⟩

/-- Selecting with the all-ones mask keeps every label position. -/
theorem maskedSelect_ones (l : List ℚ) :
    maskedSelect l (l.map fun _ => 1) = l := by
  induction l with
  | nil => rfl
  | cons x xs ih =>
    have hx : maskedSelect (x :: xs) ((x :: xs).map fun _ => 1)
        = x :: maskedSelect xs (xs.map fun _ => 1) := by
      simp only [maskedSelect, List.map_cons, List.zip_cons_cons, List.filter_cons]
      norm_num
    rw [hx, ih]

/-- C6: the per-batch step function of `DLWrapper` processes a 2-tuple
`(features, labels)` with an all-true mask — every label position is valid,
so masked selection keeps all of them — processes a 3-tuple
`(features, labels, mask)` with the given mask, and raises an immediate
loader-contract error for every element of any other arity. -/
theorem C6_step_fn (d l m : List ℚ) (e : List (List ℚ)) :
    stepFn [d, l] = .ok (d, l, l.map fun _ => 1)
    ∧ (∀ x ∈ (l.map fun _ => (1 : ℚ)), x ≠ 0)
    ∧ maskedSelect l (l.map fun _ => 1) = l
    ∧ stepFn [d, l, m] = .ok (d, l, m)
    ∧ (e.length ≠ 2 → e.length ≠ 3 → stepFn e = .error loaderErrMsg) := by
  refine ⟨rfl, ?_, maskedSelect_ones l, rfl, ?_⟩
  · intro x hx
    simp only [List.mem_map] at hx
    obtain ⟨y, _, hy⟩ := hx
    rw [← hy]
    norm_num
  · intro h2 h3
    cases e with
    | nil => rfl
    | cons a t =>
      cases t with
      | nil => rfl
      | cons b t2 =>
        cases t2 with
        | nil => exact absurd rfl h2
        | cons c t3 =>
          cases t3 with
          | nil => exact absurd rfl h3
          | cons d2 t4 => rfl

/-- Witness for C6: a 2-tuple gets the all-ones mask, a 3-tuple keeps its
mask, and a 4-tuple raises the loader-contract error. -/
theorem C6_step_fn_witness :
    stepFn [[5], [7, 8]] = .ok ([5], [7, 8], ([7, 8] : List ℚ).map fun _ => 1)
    ∧ stepFn [[5], [7], [0]] = .ok ([5], [7], [0])
    ∧ stepFn [[], [], [], []] = .error loaderErrMsg :=
  ⟨(C6_step_fn [5] [7, 8] [] []).1,
   (C6_step_fn [5] [7] [0] []).2.2.2.1,
   (C6_step_fn [] [] [] [[], [], [], []]).2.2.2.2 (by decide) (by decide)⟩

/-! ## Claims about the Step pipeline -/

/-- C7: for each concrete step (`StepImputeFill`, `StepScale`,
`StepHistorical`, `StepSklearn`), the inherited `fit_transform(data)` is the
composition `fit(data)` then `transform(data)` on the same instance: both the
returned data and the resulting step state coincide with those of the
two-call sequence. -/
theorem C7_fit_transform (S : Type) (s1 : StepImputeFill) (g1 : GroupedFrame)
    (s2 : StepScale S) (d2 : DataFrame) (s3 : StepHistorical) (g3 : GroupedFrame)
    (s4 : StepSklearn S) (d4 : DataFrame) :
    Step.fitTransform StepImputeFill.fit StepImputeFill.transform s1 g1
      = (s1.fit g1, (s1.fit g1).transform g1)
    ∧ Step.fitTransform StepScale.fit StepScale.transform s2 d2
      = (s2.fit d2, (s2.fit d2).transform d2)
    ∧ Step.fitTransform StepHistorical.fit StepHistorical.transform s3 g3
      = (s3.fit g3, (s3.fit g3).transform g3)
    ∧ Step.fitTransform StepSklearn.fit StepSklearn.transform s4 d4
      = (s4.fit d4, (s4.fit d4).transform d4) :=
  ⟨rfl, rfl, rfl, rfl⟩

/-- C8: for each concrete step, the trained flag is false from construction
and becomes true (only) through `fit`; `fit` resolves the column list from
the selector (on `data.obj` for the group-aware steps, on the plain frame
otherwise); `transform` never consults the selector or the trained flag —
replacing them changes nothing — so calling `transform` before `fit` is left
unchecked: there is no designed trained-state error.  An untrained
`StepImputeFill` with a valid fill configuration silently returns the data
unchanged, and the only errors an untrained call can raise are the pandas
`fillna` argument-validation ones, which fire trained or not. -/
theorem C8_step_state (S : Type) (sel t : Selector) (v : Option ℚ)
    (m : Option FillMethod) (lim : Option ℕ) (wm ws cw ip b : Bool)
    (lib : ColScaler S) (ext : ExtTransform S) (fn : HistFun)
    (suf : Option String) (role : String)
    (s1 : StepImputeFill) (g1 : GroupedFrame) (s2 : StepScale S) (d2 : DataFrame)
    (s3 : StepHistorical) (g3 : GroupedFrame) (s4 : StepSklearn S) (d4 : DataFrame) :
    (mkStepImputeFill sel v m lim).trained = false
    ∧ (mkStepScale sel wm ws lib).trained = false
    ∧ (mkStepHistorical sel fn suf role).trained = false
    ∧ (mkStepSklearn sel ext cw ip).trained = false
    ∧ (s1.fit g1).trained = true ∧ (s1.fit g1).columns = s1.sel g1.obj
    ∧ (s2.fit d2).trained = true ∧ (s2.fit d2).columns = s2.sel d2
    ∧ (s3.fit g3).trained = true ∧ (s3.fit g3).columns = s3.sel g3.obj
    ∧ (s4.fit d4).trained = true ∧ (s4.fit d4).columns = s4.sel d4
    ∧ StepImputeFill.transform { s1 with sel := t, trained := b } g1 = s1.transform g1
    ∧ StepScale.transform { s2 with sel := t, trained := b } d2 = s2.transform d2
    ∧ StepHistorical.transform { s3 with sel := t, trained := b } g3 = s3.transform g3
    ∧ StepSklearn.transform { s4 with sel := t, trained := b } d4 = s4.transform d4
    ∧ StepImputeFill.transform (mkStepImputeFill sel none (some FillMethod.ffill) lim) g1
        = Except.ok g1.obj
    ∧ StepImputeFill.transform (mkStepImputeFill sel none none lim) g1
        = Except.error fillnaNeedValueOrMethod
    ∧ StepImputeFill.transform (mkStepImputeFill sel (some 0) (some FillMethod.ffill) lim) g1
        = Except.error fillnaBothValueAndMethod := by
  refine ⟨rfl, rfl, rfl, rfl, rfl, rfl, rfl, rfl, rfl, rfl, ?_, ?_,
    rfl, rfl, rfl, rfl, rfl, rfl, rfl⟩
  · cases hc : s4.columnwise <;> simp [StepSklearn.fit, hc]
  · cases hc : s4.columnwise <;> simp [StepSklearn.fit, hc]
